import Mathlib

/-!
Verification development for the LAS route scraper and flight tracker.

The program (tracker.py, with a server-side clone of the cache logic in
route_server.py) maintains a route cache mapping callsigns to schedule
records, refreshed by `fetch_airport_routes`, queried by `get_live_route`,
and used by a polling loop that classifies each live state vector as an
arrival to or departure from LAS, predicting a runway for arrivals.

Modelling conventions.

Timestamps: Python datetimes are totally ordered and the code only
compares them and adds the fixed offsets of 30 and 60 minutes, so times
are embedded as `Int` minutes on an absolute timeline.

Geometry: `calculate_distance` (haversine) and `calculate_bearing` use
transcendental floating-point functions (sin, cos, atan2, sqrt) with no
exact counterpart in a shallow embedding.  The discrete logic built on
top of them is embedded exactly over `ℚ`, and the geometric measurements
of an aircraft position (distance to LAS, bearing to LAS, distances to
the KHND and KVGT satellite fields, bearings to runway thresholds) enter
the model as explicit inputs, exactly as the classification code consumes
them.  The angular-difference computation `abs((a - b + 180) % 360 - 180)`
is embedded exactly: `qmod` below is the Python float modulo (sign of the
divisor) realised on `ℚ`.
-/

/-- Python `str.strip()`: remove leading and trailing whitespace.
Realised structurally on the character list of the string (the built-in
position-based `String.trim` is extensionally the same on ASCII input but
is defined by well-founded recursion and is kept out of the model). -/
def pyStrip (s : String) : String :=
  ⟨((s.data.dropWhile Char.isWhitespace).reverse.dropWhile Char.isWhitespace).reverse⟩

/-- Python `str.upper()` on ASCII text, realised structurally. -/
def pyUpper (s : String) : String := ⟨s.data.map Char.toUpper⟩

/-- Python `str.lower()` on ASCII text, realised structurally. -/
def pyLower (s : String) : String := ⟨s.data.map Char.toLower⟩

/-- Python `str.startswith`, realised structurally. -/
def pyStartsWith (s pre : String) : Bool := pre.data.isPrefixOf s.data

/-- Schedule metadata for one callsign, the values of `route_cache`.
`scheduled_time` is `Option` because the eviction pass of
`fetch_airport_routes` explicitly tolerates (and removes) entries without
a parsable scheduled time, and the not-found fallback of `get_live_route`
carries no times at all. -/
structure RouteRecord where
  origin : String
  dest : String
  airline_iata : String
  airline_icao : String
  scheduled_time : Option Int := none
  actual_time : Option Int := none
deriving DecidableEq

/-- The route cache: a mapping from callsign to route record. -/
def RouteMap : Type := String → Option RouteRecord

def emptyRouteMap : RouteMap := fun _ => none

def insertRoute (m : RouteMap) (k : String) (v : RouteRecord) : RouteMap :=
  fun cs => if cs = k then some v else m cs

/-- `route_cache.update(new_routes)`: every incoming record unconditionally
replaces an existing entry under the same callsign. -/
def updateCache (cache newR : RouteMap) : RouteMap :=
  fun cs =>
    match newR cs with
    | some r => some r
    | none => cache cs

/-- Relevance time of a record: the actual/estimated time if present,
else the scheduled time (`info.get('actual_time') or info['scheduled_time']`;
a datetime is never falsy in Python, so `or` is exactly this preference). -/
def relevanceTime (r : RouteRecord) : Option Int :=
  match r.actual_time with
  | some a => some a
  | none => r.scheduled_time

/-- The eviction test of `fetch_airport_routes` (tracker.py lines 271-283,
identical in route_server.py lines 332-343): an entry with no scheduled
time is removed; otherwise, with `use_time` the actual time if present
else the scheduled time, the entry is removed when `use_time < now`, or
(elif, only reachable when an actual time exists) when
`actual_time + 30 minutes < now`. -/
def isExpired (now : Int) (r : RouteRecord) : Bool :=
  match r.scheduled_time with
  | none => true
  | some s =>
    match r.actual_time with
    | some a => decide (a < now) || decide (a + 30 < now)
    | none => decide (s < now)

def evictExpired (now : Int) (m : RouteMap) : RouteMap :=
  fun cs =>
    match m cs with
    | none => none
    | some r => if isExpired now r then none else some r

/-- The cache mutation performed by one `fetch_airport_routes` call after
scraping: `route_cache.update(new_routes)` followed by removal of every
expired entry. -/
def mergeRoutes (cache newR : RouteMap) (now : Int) : RouteMap :=
  evictExpired now (updateCache cache newR)

/-- The `IATA_TO_ICAO` table of tracker.py. -/
def IATA_TO_ICAO : List (String × String) :=
  [("WN", "SWA"), ("DL", "DAL"), ("AA", "AAL"), ("UA", "UAL"), ("AS", "ASA"),
   ("F9", "FFT"), ("NK", "NKS"), ("B6", "JBU"), ("G4", "AAY")]

/-- `IATA_TO_ICAO.get(airline_iata, airline_iata[:3])`. -/
def iataToIcao (ai : String) : String :=
  match IATA_TO_ICAO.lookup ai with
  | some c => c
  | none => ai.take 3

/-- One row of the scraped FlightAware table after the HTML/text layer:
the flight ident, the counterpart airport code parsed from the city cell
("---" when unparsable), the scheduled time if `parse_time` succeeded
(tracker.py `parse_time` never produces an estimated time), the actual
time if `parse_status` parsed a "Departed at" status, and whether the
raw status text contains "Departed". -/
structure ScrapedRow where
  ident : String
  iata : String
  scheduled_dt : Option Int
  actual_dt : Option Int
  departed : Bool
deriving DecidableEq

inductive Scope where
  | arrival
  | departure
deriving DecidableEq

/-- The record cached for one admitted row (tracker.py lines 238-245 for
arrivals, 253-260 for departures): callsign is the uppercased ident,
airline IATA its first two characters, airline ICAO via `iataToIcao`;
an arrival stores `actual_time := estimated_dt`, which `parse_time`
always leaves `None`; a departure stores the parsed actual time only
when the status text contains "Departed". -/
def rowRecord (scope : Scope) (row : ScrapedRow) (sched : Int) : RouteRecord :=
  match scope with
  | Scope.arrival =>
    { origin := row.iata, dest := "LAS",
      airline_iata := (pyUpper row.ident).take 2,
      airline_icao := iataToIcao ((pyUpper row.ident).take 2),
      scheduled_time := some sched, actual_time := none }
  | Scope.departure =>
    { origin := "LAS", dest := row.iata,
      airline_iata := (pyUpper row.ident).take 2,
      airline_icao := iataToIcao ((pyUpper row.ident).take 2),
      scheduled_time := some sched,
      actual_time := if row.departed then row.actual_dt else none }

/-- Processing of one scraped row into `new_routes`: rows without a
parsable scheduled time are dropped; the admission window compares
`use_time = estimated_dt if estimated_dt else scheduled_dt` (hence the
scheduled time, estimated being always `None` in tracker.py) against
`[now, now + 60 minutes]`. -/
def processRow (now : Int) (scope : Scope) (acc : RouteMap) (row : ScrapedRow) : RouteMap :=
  match row.scheduled_dt with
  | none => acc
  | some sched =>
    if now ≤ sched ∧ sched ≤ now + 60 then
      insertRoute acc (pyUpper row.ident) (rowRecord scope row sched)
    else acc

/-- The `new_routes` dictionary built by one scrape: the arrival page is
processed first, then the departure page, later rows overwriting earlier
ones under the same callsign. -/
def buildNewRoutes (now : Int) (arrRows depRows : List ScrapedRow) : RouteMap :=
  depRows.foldl (processRow now Scope.departure)
    (arrRows.foldl (processRow now Scope.arrival) emptyRouteMap)

/-- One `fetch_airport_routes` call at time `now`, given the parsed rows
of the two scraped pages and the cache contents before the call. -/
def fetch_airport_routes (now : Int) (arrRows depRows : List ScrapedRow)
    (cache : RouteMap) : RouteMap :=
  mergeRoutes cache (buildNewRoutes now arrRows depRows) now

/-- `get_live_route`: trims and uppercases the callsign; a blank callsign
or a cache miss yields the not-found fallback (origin "---", dest "---").
The function is a pure read in the embedding, as in the source, which
only indexes `route_cache` here and never assigns to it. -/
def get_live_route (cache : RouteMap) (callsign : String) : RouteRecord :=
  let cs := pyUpper (pyStrip callsign)
  if cs = "" then
    { origin := "---", dest := "---", airline_iata := "---", airline_icao := "---" }
  else
    match cache cs with
    | some r => r
    | none =>
      { origin := "---", dest := "---",
        airline_iata := cs.take 3, airline_icao := cs.take 3 }

/-- Python float modulo with a positive divisor: `a - b * floor (a / b)`,
the exact semantics of `%` on floats, realised on `ℚ`. -/
def qmod (a b : ℚ) : ℚ := a - b * ⌊a / b⌋

/-- The angular-difference computation used by `is_approach_to_las` and
`get_runway`: `abs((a - b + 180) % 360 - 180)`. -/
def headingDiff (a b : ℚ) : ℚ := |qmod (a - b + 180) 360 - 180|

/-- `is_approach_to_las` (tracker.py lines 336-343), with the two
geometric measurements of the aircraft position (distance to LAS and
bearing to LAS) given as inputs. -/
def is_approach_to_las (distLAS bearingLAS heading v_rate alt_ft : ℚ) : Bool :=
  decide (v_rate < 0 ∧ alt_ft < 15000 ∧
    (distLAS < 60 ∨ headingDiff heading bearingLAS < 120))

/-- `is_departure_from_las` (tracker.py lines 345-349). -/
def is_departure_from_las (distLAS v_rate alt_ft : ℚ) : Bool :=
  decide (distLAS < 30 ∧ v_rate > 0 ∧ alt_ft < 10000)

/-- `get_aircraft_type`: database hit wins, otherwise a Southwest
callsign defaults to "B737" and anything else to "JET". -/
def get_aircraft_type (db : String → Option String) (icao callsign : String) : String :=
  match db (pyLower icao) with
  | some t => t
  | none => if pyStartsWith callsign "SWA" then "B737" else "JET"

/-- The `ignored_types` set of `is_ignored_type`, verbatim. -/
def ignored_types : List String :=
  ["A109", "A119", "A129", "A139", "A169", "A189", "AS32", "AS35", "AS55",
   "AS65", "B105", "B407", "B412", "B427", "B429", "B430", "EC20", "EC25",
   "EC30", "EC35", "EC45", "EC55", "H47", "H60", "MD52", "MD60", "MD90",
   "R22", "R44", "R66", "S76", "S92", "B505", "H125", "H130", "H135",
   "H145", "H160", "H175", "H225",
   "C150", "C152", "C172", "C182", "C206", "C208", "C210", "C310", "C337",
   "P28A", "P28R", "P32R", "P46T", "BE33", "BE35", "BE36", "BE55", "BE58",
   "M20P", "M20T", "SR20", "SR22", "DA40", "DA42", "DA62", "PC6T", "PC12",
   "TBM7", "TBM8", "TBM9", "SF50", "PA46", "PA34", "PA31", "BN2P", "GA8",
   "DHC2", "DHC3", "DHC6",
   "C421", "T206"]

def heliFamilies : List String :=
  ["A1", "AS", "B4", "EC", "H1", "H2", "MD", "R2", "R4", "R6", "S7", "S9", "H"]

def lightFamilies : List String :=
  ["C1", "C2", "P2", "SR", "BE", "M20", "DA", "PC", "TBM", "PA", "BN2",
   "GA", "DHC", "C4", "T2"]

/-- `is_ignored_type`: exact-code membership, then the helicopter and
light-aircraft family tests by string prefix. -/
def is_ignored_type (atype : String) : Bool :=
  let a := pyUpper atype
  ignored_types.contains a
    || heliFamilies.any (fun p => pyStartsWith a p)
    || lightFamilies.any (fun p => pyStartsWith a p)

/-- One state vector of the polling loop after field extraction and unit
conversion (tracker.py lines 482-494), together with the geometric
measurements of its position that the loop computes via the haversine
distance and initial bearing (see the module comment): distance and
bearing to LAS, and distances to the KHND and KVGT satellite fields. -/
structure StateObs where
  icao : String
  callsign : String
  lat : ℚ
  lon : ℚ
  spd_kt : ℚ
  alt_ft : ℚ
  heading : ℚ
  v_rate : ℚ
  distLAS : ℚ
  bearingLAS : ℚ
  distKHND : ℚ
  distKVGT : ℚ
deriving DecidableEq

inductive Classification where
  | arrival
  | departure
  | unclassified
deriving DecidableEq

/-- The arrival flag of the main loop (tracker.py lines 511-515): a route
destination of LAS/KLAS forces an arrival; otherwise the geometric
heuristic, or the fallback `v_rate < -0.5 and alt_ft < 12000 and
dest == "---"`. -/
def mainIsArrival (route : RouteRecord) (distLAS bearingLAS heading v_rate alt_ft : ℚ) : Bool :=
  if route.dest = "LAS" ∨ route.dest = "KLAS" then true
  else
    is_approach_to_las distLAS bearingLAS heading v_rate alt_ft
      || decide (v_rate < -(1/2) ∧ alt_ft < 12000 ∧ route.dest = "---")

/-- The departure flag of the main loop (tracker.py lines 517-520). -/
def mainIsDeparture (route : RouteRecord) (distLAS v_rate alt_ft : ℚ) : Bool :=
  if route.origin = "LAS" ∨ route.origin = "KLAS" then true
  else
    is_departure_from_las distLAS v_rate alt_ft
      || decide (v_rate > 1/2 ∧ alt_ft < 10000 ∧ route.origin = "---")

/-- One pass of the polling loop over a single state vector (tracker.py
lines 482-541): the callsign, speed/altitude and aircraft-type exclusion
filters, then the two classification flags, then the VGT and KHND/KVGT
exclusions, then the final classification.  `none` means the aircraft
was excluded by a filter (`continue` in the source); an aircraft that
survives the filters but matches neither flag is `unclassified` and is
appended to neither output list. -/
def classifyStep (db : String → Option String) (cache : RouteMap) (o : StateObs) :
    Option Classification :=
  let call := pyUpper (pyStrip o.callsign)
  if call = "" then none
  else if o.spd_kt < 130 ∨ o.alt_ft > 15000 then none
  else if is_ignored_type (get_aircraft_type db o.icao call) then none
  else
    let route := get_live_route cache call
    let isArr := mainIsArrival route o.distLAS o.bearingLAS o.heading o.v_rate o.alt_ft
    let isDep := mainIsDeparture route o.distLAS o.v_rate o.alt_ft
    if isArr ∧ o.lat > 36.15 ∧ o.alt_ft < 6000 then none
    else if o.v_rate < 0 ∧ o.alt_ft < 5000 ∧ (o.distKHND < 5 ∨ o.distKVGT < 5) ∧
        ¬(route.dest = "LAS" ∨ route.dest = "KLAS") then none
    else if isArr then some Classification.arrival
    else if isDep then some Classification.departure
    else some Classification.unclassified

/-- One poll cycle over the fetched state vectors: each classified
arrival is appended to the first list, each classified departure (with
`elif`, hence only when not an arrival) to the second.  The source then
sorts each list by altitude, which permutes it and cannot change
membership, so the sort is not modelled. -/
def pollStep (db : String → Option String) (cache : RouteMap)
    (acc : List StateObs × List StateObs) (o : StateObs) :
    List StateObs × List StateObs :=
  match classifyStep db cache o with
  | some Classification.arrival => (acc.1 ++ [o], acc.2)
  | some Classification.departure => (acc.1, acc.2 ++ [o])
  | _ => acc

def pollCycle (db : String → Option String) (cache : RouteMap) (obs : List StateObs) :
    List StateObs × List StateObs :=
  obs.foldl (pollStep db cache) ([], [])

/-- The `RUNWAY_THRESHOLDS` table, in its Python insertion order. -/
def RUNWAY_THRESHOLDS : List (String × ℚ × ℚ) :=
  [("01L", 36.058, -115.158),
   ("01R", 36.058, -115.145),
   ("08L", 36.069, -115.178),
   ("08R", 36.069, -115.165),
   ("19L", 36.101, -115.139),
   ("19R", 36.101, -115.152),
   ("26L", 36.092, -115.126),
   ("26R", 36.092, -115.139)]

/-- Comparison of a candidate angular difference against the running
minimum of the `get_runway` loop, whose initial value is `float('inf')`
(here `none`). -/
def ltO (d : ℚ) (m : Option ℚ) : Bool :=
  match m with
  | none => true
  | some m0 => decide (d < m0)

/-- The selection loop of `get_runway` over the (runway, bearing) pairs:
`if r_diff < min_diff: min_diff, predicted = r_diff, rwy`. -/
def runwayLoop (hdg : ℚ) : List (String × ℚ) → Option ℚ → String → String
  | [], _, predicted => predicted
  | (n, b) :: rest, min_diff, predicted =>
    if ltO (headingDiff hdg b) min_diff then
      runwayLoop hdg rest (some (headingDiff hdg b)) n
    else
      runwayLoop hdg rest min_diff predicted

/-- `get_runway` (tracker.py lines 351-373), with the distance to LAS and
bearing to LAS given as inputs and the bearings from the aircraft to the
runway-threshold coordinates supplied by the oracle `bear` (in the source
these are `calculate_bearing(lat, lon, r_lat, r_lon)`).  The heading is
normalised by `% 360` as in the source. -/
def get_runway (dist bearingLAS : ℚ) (bear : ℚ → ℚ → ℚ) (hdg alt_ft : ℚ) : String :=
  if dist > 40 ∨ alt_ft ≥ 7000 then ""
  else if headingDiff (qmod hdg 360) bearingLAS ≥ 90 then ""
  else
    runwayLoop (qmod hdg 360)
      (RUNWAY_THRESHOLDS.map (fun p => (p.1, bear p.2.1 p.2.2))) none ""

/-- Specification-side selection, following the words of the claim: the
first table entry whose angular difference to the heading is minimal
(less than or equal to the difference of every later entry) wins. -/
def firstMinRunway (hdg : ℚ) : List (String × ℚ) → String
  | [] => ""
  | (n, b) :: rest =>
    if rest.all (fun q => decide (headingDiff hdg b ≤ headingDiff hdg q.2)) then n
    else firstMinRunway hdg rest

/-- Generalisation of `firstMinRunway` by the running minimum: the first
entry that beats the threshold `m` and is minimal among the later
entries, with default `p`. -/
def selFrom (hdg : ℚ) (m : Option ℚ) (p : String) : List (String × ℚ) → String
  | [] => p
  | (n, b) :: rest =>
    if ltO (headingDiff hdg b) m
        && rest.all (fun q => decide (headingDiff hdg b ≤ headingDiff hdg q.2)) then n
    else selFrom hdg m p rest

/-- The empty aircraft-type database (no aircraft.csv rows). -/
def db0 : String → Option String := fun _ => none

/-- A resident record whose actual time is 29 minutes before the merge
time 1000 and whose scheduled time is 5 minutes after it. -/
def recActual29 : RouteRecord :=
  { origin := "PHX", dest := "LAS", airline_iata := "AA", airline_icao := "AAL",
    scheduled_time := some 1005, actual_time := some 971 }

def cacheActual29 : RouteMap := insertRoute emptyRouteMap "AAL100" recActual29

/-- A resident record whose actual time is 5 minutes after the merge
time 1000. -/
def recActualFresh : RouteRecord :=
  { origin := "SEA", dest := "LAS", airline_iata := "DL", airline_icao := "DAL",
    scheduled_time := some 1010, actual_time := some 1005 }

def cacheActualFresh : RouteMap := insertRoute emptyRouteMap "DAL200" recActualFresh

/-- A departure row scraped at time 0: scheduled inside the admission
window, but with a parsed "Departed at" actual time of 120 minutes, far
beyond the 60-minute forward window. -/
def rowFutureActual : ScrapedRow :=
  { ident := "UAL5", iata := "SFO", scheduled_dt := some 5,
    actual_dt := some 120, departed := true }

/-- The record that `fetch_airport_routes` caches for `rowFutureActual`. -/
def recFutureActual : RouteRecord :=
  { origin := "LAS", dest := "SFO", airline_iata := "UA", airline_icao := "UAL",
    scheduled_time := some 5, actual_time := some 120 }

/-- A cached record with destination LAS under callsign SWA100. -/
def recSWA100 : RouteRecord :=
  { origin := "PHX", dest := "LAS", airline_iata := "WN", airline_icao := "SWA",
    scheduled_time := some 30, actual_time := none }

def cacheSWA100 : RouteMap := insertRoute emptyRouteMap "SWA100" recSWA100

/-- A cached departure record under callsign DAL5. -/
def recDAL5 : RouteRecord :=
  { origin := "LAS", dest := "JFK", airline_iata := "DL", airline_icao := "DAL",
    scheduled_time := some 45, actual_time := none }

def cacheDAL5 : RouteMap := insertRoute emptyRouteMap "DAL5" recDAL5

/-- A state vector with no cached route that fails the geometric arrival
heuristic (70 km out, heading 150 degrees away from the bearing to LAS)
while descending at 8000 ft. -/
def obsFallbackArr : StateObs :=
  { icao := "abc123", callsign := "ABC123", lat := 36, lon := -115,
    spd_kt := 400, alt_ft := 8000, heading := 0, v_rate := -1,
    distLAS := 70, bearingLAS := 150, distKHND := 50, distKVGT := 50 }

/-- A state vector satisfying the geometric arrival heuristic: 50 km from
LAS, descending at -500, altitude 8000 ft, heading 10 degrees off the
bearing to LAS. -/
def obsGeomArr : StateObs :=
  { icao := "abq111", callsign := "NKS55", lat := 36, lon := -115,
    spd_kt := 350, alt_ft := 8000, heading := 0, v_rate := -500,
    distLAS := 50, bearingLAS := 10, distKHND := 30, distKVGT := 30 }

/-- A climbing state vector whose callsign resolves to the cached record
with destination LAS. -/
def obsSchedArr : StateObs :=
  { icao := "a1b2c3", callsign := "SWA100", lat := 36, lon := -115,
    spd_kt := 300, alt_ft := 9000, heading := 100, v_rate := 5,
    distLAS := 40, bearingLAS := 100, distKHND := 20, distKVGT := 20 }

/-- A state vector with no cached route, climbing at 8000 ft but 50 km
from LAS. -/
def obsFallbackDep : StateObs :=
  { icao := "def456", callsign := "XYZ789", lat := 36, lon := -115,
    spd_kt := 250, alt_ft := 8000, heading := 90, v_rate := 1,
    distLAS := 50, bearingLAS := 270, distKHND := 40, distKVGT := 40 }

/-- A state vector climbing at 5000 ft within 10 km of LAS. -/
def obsNearDep : StateObs :=
  { icao := "fed654", callsign := "JBU17", lat := 36, lon := -115,
    spd_kt := 200, alt_ft := 5000, heading := 90, v_rate := 2,
    distLAS := 10, bearingLAS := 270, distKHND := 12, distKVGT := 12 }

/-! ## Cache lemmas -/

theorem processRow_window (now : Int) (scope : Scope) (acc : RouteMap) (row : ScrapedRow)
    (h : ∀ cs r, acc cs = some r → ∃ s, r.scheduled_time = some s ∧ now ≤ s ∧ s ≤ now + 60) :
    ∀ cs r, processRow now scope acc row cs = some r →
      ∃ s, r.scheduled_time = some s ∧ now ≤ s ∧ s ≤ now + 60 := by
  intro cs r hr
  unfold processRow at hr
  cases hsch : row.scheduled_dt with
  | none =>
    simp only [hsch] at hr
    exact h cs r hr
  | some sched =>
    simp only [hsch] at hr
    by_cases hw : now ≤ sched ∧ sched ≤ now + 60
    · rw [if_pos hw] at hr
      simp only [insertRoute] at hr
      by_cases hcs : cs = pyUpper row.ident
      · rw [if_pos hcs] at hr
        injection hr with h2
        subst h2
        exact ⟨sched, by cases scope <;> rfl, hw.1, hw.2⟩
      · rw [if_neg hcs] at hr
        exact h cs r hr
    · rw [if_neg hw] at hr
      exact h cs r hr

theorem foldl_processRow_window (now : Int) (scope : Scope) :
    ∀ (rows : List ScrapedRow) (acc : RouteMap),
      (∀ cs r, acc cs = some r → ∃ s, r.scheduled_time = some s ∧ now ≤ s ∧ s ≤ now + 60) →
      ∀ cs r, (rows.foldl (processRow now scope) acc) cs = some r →
        ∃ s, r.scheduled_time = some s ∧ now ≤ s ∧ s ≤ now + 60
  | [], _, h => h
  | row :: rest, acc, h =>
    foldl_processRow_window now scope rest (processRow now scope acc row)
      (processRow_window now scope acc row h)

/-- Claim C1 counterexample: at merge time 1000, a resident record with
actual time 971 (29 minutes in the past) and scheduled time 1005 (5
minutes in the future) is evicted by the merge, not retained: the
eviction prefers the actual time when computing the relevance time, so
any past actual time already triggers the first eviction rule. -/
theorem merge_evicts_recent_actual_cex :
    fetch_airport_routes 1000 [] [] cacheActual29 "AAL100" = none := by
  decide

/-- Claim C1 (amended): after a merge at time `now`, a record of the
updated cache that carries an actual/estimated time and a parsable
scheduled time is evicted exactly when its actual time is before `now` —
in particular a record with actual time `now - 31` and scheduled time
`now + 5` is absent, but so is one with actual time `now - 29`; a record
with actual time at or after `now` is retained. -/
theorem merge_actual_eviction (cache newR : RouteMap) (now : Int) (cs : String)
    (r : RouteRecord) (s a : Int)
    (hu : updateCache cache newR cs = some r)
    (hs : r.scheduled_time = some s)
    (ha : r.actual_time = some a) :
    mergeRoutes cache newR now cs = if a < now then none else some r := by
  have he : isExpired now r = (decide (a < now) || decide (a + 30 < now)) := by
    simp only [isExpired, hs, ha]
  by_cases h : a < now
  · have hx : isExpired now r = true := by simp [he, h]
    simp [mergeRoutes, evictExpired, hu, hx, h]
  · have h2 : ¬(a + 30 < now) := by omega
    have hx : isExpired now r = false := by simp [he, h, h2]
    simp [mergeRoutes, evictExpired, hu, hx, h]

/-- Witness for `merge_actual_eviction`: a record with actual time 1005
survives a merge at time 1000. -/
theorem merge_actual_eviction_witness :
    mergeRoutes cacheActualFresh emptyRouteMap 1000 "DAL200" = some recActualFresh := by
  have h := merge_actual_eviction cacheActualFresh emptyRouteMap 1000 "DAL200"
    recActualFresh 1010 1005 (by decide) (by decide) (by decide)
  rw [if_neg (by decide)] at h
  exact h

/-- Claim C2 counterexample: at merge time 0, the departure row
`rowFutureActual` (scheduled time 5, parsed actual time 120) is admitted
— the admission window only tests the estimated/scheduled time — and the
resulting record, whose relevance time 120 exceeds `now + 60`, is
resident and retrievable via `get_live_route` immediately after the
merge. -/
theorem cache_window_cex :
    get_live_route (fetch_airport_routes 0 [] [rowFutureActual] emptyRouteMap) "UAL5"
        = recFutureActual ∧
      relevanceTime recFutureActual = some 120 ∧ (0 : Int) + 60 < 120 := by
  refine ⟨by decide, by decide, by decide⟩

/-- Claim C2 (amended): admission during a merge at time `now` tests the
scheduled time (the estimated time being always absent in tracker.py,
and the actual time parsed from the status text never being consulted):
every record of `new_routes` has a scheduled time inside
`[now, now + 60]`.  After the merge, every resident record has a
relevance time at or after `now`; the relevance time may however exceed
`now + 60` when a stored actual time does (see `cache_window_cex`). -/
theorem cache_window_amended :
    (∀ (now : Int) (arrRows depRows : List ScrapedRow) (cs : String) (r : RouteRecord),
        buildNewRoutes now arrRows depRows cs = some r →
        ∃ s, r.scheduled_time = some s ∧ now ≤ s ∧ s ≤ now + 60) ∧
    (∀ (cache newR : RouteMap) (now : Int) (cs : String) (r : RouteRecord),
        mergeRoutes cache newR now cs = some r →
        ∃ t, relevanceTime r = some t ∧ now ≤ t) := by
  constructor
  · intro now arrRows depRows cs r h
    refine foldl_processRow_window now Scope.departure depRows _
      (foldl_processRow_window now Scope.arrival arrRows emptyRouteMap ?_) cs r h
    intro cs0 r0 h0
    exact absurd h0 (by simp [emptyRouteMap])
  · intro cache newR now cs r h
    simp only [mergeRoutes, evictExpired] at h
    cases hu : updateCache cache newR cs with
    | none => simp [hu] at h
    | some r0 =>
      simp only [hu] at h
      cases he : isExpired now r0 with
      | true => simp [he] at h
      | false =>
        simp only [he, if_neg] at h
        have hr0 : r0 = r := by simpa using h
        subst hr0
        simp only [isExpired] at he
        cases hs : r0.scheduled_time with
        | none => simp [hs] at he
        | some s =>
          simp only [hs] at he
          cases ha : r0.actual_time with
          | some a =>
            simp only [ha, Bool.or_eq_false_iff, decide_eq_false_iff_not] at he
            exact ⟨a, by simp [relevanceTime, ha], by omega⟩
          | none =>
            simp only [ha, decide_eq_false_iff_not] at he
            exact ⟨s, by simp [relevanceTime, ha, hs], by omega⟩

/-- Witness for `cache_window_amended`: the record admitted for
`rowFutureActual` at time 0 indeed has its scheduled time inside the
window `[0, 60]`. -/
theorem cache_window_amended_witness :
    ∃ s, recFutureActual.scheduled_time = some s ∧ (0 : Int) ≤ s ∧ s ≤ 0 + 60 :=
  cache_window_amended.1 0 [] [rowFutureActual] "UAL5" recFutureActual (by decide)

/-! ## Geometry lemmas -/

theorem qmod_eq_fract (a : ℚ) : qmod a 360 = 360 * Int.fract (a / 360) := by
  have h : (360 : ℚ) * (a / 360) = a := by
    field_simp
  unfold qmod
  rw [Int.fract, mul_sub, h]

theorem qmod_nonneg (a : ℚ) : 0 ≤ qmod a 360 := by
  rw [qmod_eq_fract]
  exact mul_nonneg (by norm_num) (Int.fract_nonneg _)

theorem qmod_lt_360 (a : ℚ) : qmod a 360 < 360 := by
  rw [qmod_eq_fract]
  calc (360 : ℚ) * Int.fract (a / 360) < 360 * 1 :=
        mul_lt_mul_of_pos_left (Int.fract_lt_one _) (by norm_num)
    _ = 360 := mul_one 360

theorem qmod_add_int_mul (x : ℚ) (k : ℤ) : qmod (x + 360 * k) 360 = qmod x 360 := by
  rw [qmod_eq_fract, qmod_eq_fract]
  have h : (x + 360 * k) / 360 = x / 360 + k := by
    field_simp
    ring
  rw [h, Int.fract_add_int]

theorem headingDiff_nonneg (a b : ℚ) : 0 ≤ headingDiff a b :=
  abs_nonneg _

theorem headingDiff_le_180 (a b : ℚ) : headingDiff a b ≤ 180 := by
  unfold headingDiff
  rw [abs_le]
  constructor
  · have := qmod_nonneg (a - b + 180)
    linarith
  · have := qmod_lt_360 (a - b + 180)
    linarith

theorem headingDiff_comm (a b : ℚ) : headingDiff a b = headingDiff b a := by
  unfold headingDiff
  rw [qmod_eq_fract, qmod_eq_fract]
  have hsum : (b - a + 180) / 360 = -((a - b + 180) / 360) + (1 : ℤ) := by
    push_cast
    ring
  rw [hsum, Int.fract_add_int]
  rcases eq_or_ne (Int.fract ((a - b + 180) / 360)) 0 with h | h
  · have h2 : Int.fract (-((a - b + 180) / 360)) = 0 := Int.fract_neg_eq_zero.mpr h
    rw [h, h2]
  · have h2 : Int.fract (-((a - b + 180) / 360)) = 1 - Int.fract ((a - b + 180) / 360) :=
      Int.fract_neg h
    rw [h2]
    have e : (360 : ℚ) * (1 - Int.fract ((a - b + 180) / 360)) - 180
        = -(360 * Int.fract ((a - b + 180) / 360) - 180) := by
      ring
    rw [e, abs_neg]

/-- The normalisation `hdg % 360` performed by `get_runway` does not
change any angular difference taken against the normalised heading. -/
theorem headingDiff_qmod (h b : ℚ) : headingDiff (qmod h 360) b = headingDiff h b := by
  unfold headingDiff
  have e : qmod h 360 - b + 180 = (h - b + 180) + 360 * (-⌊h / 360⌋ : ℤ) := by
    unfold qmod
    push_cast
    ring
  rw [e, qmod_add_int_mul]

/-- Claim C7: the angular-difference computation
`abs((a - b + 180) % 360 - 180)` is symmetric, always lies in `[0, 180]`,
and maps the pair (350, 10) to 20. -/
theorem angular_difference_properties :
    (∀ a b : ℚ, headingDiff a b = headingDiff b a) ∧
      (∀ a b : ℚ, 0 ≤ headingDiff a b ∧ headingDiff a b ≤ 180) ∧
      headingDiff 350 10 = 20 := by
  refine ⟨headingDiff_comm, fun a b => ⟨headingDiff_nonneg a b, headingDiff_le_180 a b⟩, ?_⟩
  norm_num [headingDiff, qmod]

/-! ## Lookup lemmas -/

/-- Claim C8: `get_live_route` first strips and uppercases the callsign;
a hit on the normalised key returns the cached record unchanged, and a
miss — in particular a blank callsign, which short-circuits to the
fallback before the cache is consulted — returns the not-found fallback
record with origin "---" and dest "---" instead of raising.  The
function is a pure read: it is a function of the cache and produces no
new cache, as in the source, which only indexes `route_cache` here. -/
theorem lookup_contract (cache : RouteMap) (callsign : String) :
    (pyUpper (pyStrip callsign) ≠ "" →
      ∀ r, cache (pyUpper (pyStrip callsign)) = some r →
        get_live_route cache callsign = r) ∧
    ((pyUpper (pyStrip callsign) = "" ∨ cache (pyUpper (pyStrip callsign)) = none) →
      (get_live_route cache callsign).origin = "---" ∧
        (get_live_route cache callsign).dest = "---") := by
  constructor
  · intro hne r hr
    simp only [get_live_route]
    rw [if_neg hne]
    simp only [hr]
  · rintro (h | h)
    · simp only [get_live_route]
      rw [if_pos h]
      refine ⟨?_, ?_⟩ <;> trivial
    · simp only [get_live_route]
      by_cases hb : pyUpper (pyStrip callsign) = ""
      · rw [if_pos hb]
        refine ⟨?_, ?_⟩ <;> trivial
      · rw [if_neg hb]
        simp only [h]
        refine ⟨?_, ?_⟩ <;> trivial

/-- Witness for `lookup_contract`: a hit after trimming and uppercasing
" dal5 ", and the fallback on a miss. -/
theorem lookup_contract_witness :
    get_live_route cacheDAL5 " dal5 " = recDAL5 ∧
      (get_live_route cacheDAL5 "ZZZ9").origin = "---" ∧
      (get_live_route cacheDAL5 "ZZZ9").dest = "---" := by
  refine ⟨(lookup_contract cacheDAL5 " dal5 ").1 (by decide) recDAL5 (by decide), ?_⟩
  exact (lookup_contract cacheDAL5 "ZZZ9").2 (Or.inr (by decide))

/-! ## Classification lemmas -/

/-- Claim C4: a state vector that passes the exclusion filters and whose
cache lookup yields a record with destination LAS is classified Arrival
regardless of its geometry — nothing about position, heading, distance or
vertical rate is assumed. -/
theorem schedule_dest_forces_arrival (db : String → Option String) (cache : RouteMap)
    (o : StateObs)
    (hcall : pyUpper (pyStrip o.callsign) ≠ "")
    (hflt : ¬(o.spd_kt < 130 ∨ o.alt_ft > 15000))
    (htyp : is_ignored_type (get_aircraft_type db o.icao (pyUpper (pyStrip o.callsign))) = false)
    (hdest : (get_live_route cache (pyUpper (pyStrip o.callsign))).dest = "LAS")
    (hvgt : ¬(o.lat > 36.15 ∧ o.alt_ft < 6000)) :
    classifyStep db cache o = some Classification.arrival := by
  have hArr : mainIsArrival (get_live_route cache (pyUpper (pyStrip o.callsign)))
      o.distLAS o.bearingLAS o.heading o.v_rate o.alt_ft = true := by
    simp [mainIsArrival, hdest]
  simp only [classifyStep]
  rw [if_neg hcall, if_neg hflt, if_neg (by simp [htyp])]
  rw [hArr]
  rw [if_neg (fun hc => hvgt hc.2)]
  rw [if_neg (fun hc => hc.2.2.2 (Or.inl hdest))]
  rw [if_pos rfl]

/-- Witness for `schedule_dest_forces_arrival`: a climbing aircraft
(vertical rate 5) with a cached destination of LAS is still an
arrival. -/
theorem schedule_dest_forces_arrival_witness :
    obsSchedArr.v_rate > 0 ∧
      classifyStep db0 cacheSWA100 obsSchedArr = some Classification.arrival := by
  refine ⟨by with_unfolding_all decide, ?_⟩
  exact schedule_dest_forces_arrival db0 cacheSWA100 obsSchedArr
    (by decide) (by with_unfolding_all decide) (by decide) (by decide)
    (by with_unfolding_all decide)

/-- Evaluation helper: once the callsign, speed/altitude and type filters
pass and neither the VGT nor the KHND/KVGT exclusion fires, the
classification is decided by the two flags alone. -/
theorem classifyStep_unfold (db : String → Option String) (cache : RouteMap) (o : StateObs)
    (hcall : pyUpper (pyStrip o.callsign) ≠ "")
    (hflt : ¬(o.spd_kt < 130 ∨ o.alt_ft > 15000))
    (htyp : is_ignored_type (get_aircraft_type db o.icao (pyUpper (pyStrip o.callsign))) = false)
    (hvgt : ¬(mainIsArrival (get_live_route cache (pyUpper (pyStrip o.callsign)))
        o.distLAS o.bearingLAS o.heading o.v_rate o.alt_ft = true ∧
      o.lat > 36.15 ∧ o.alt_ft < 6000))
    (hsat : ¬(o.v_rate < 0 ∧ o.alt_ft < 5000 ∧ (o.distKHND < 5 ∨ o.distKVGT < 5) ∧
      ¬((get_live_route cache (pyUpper (pyStrip o.callsign))).dest = "LAS" ∨
        (get_live_route cache (pyUpper (pyStrip o.callsign))).dest = "KLAS"))) :
    classifyStep db cache o =
      if mainIsArrival (get_live_route cache (pyUpper (pyStrip o.callsign)))
          o.distLAS o.bearingLAS o.heading o.v_rate o.alt_ft then
        some Classification.arrival
      else if mainIsDeparture (get_live_route cache (pyUpper (pyStrip o.callsign)))
          o.distLAS o.v_rate o.alt_ft then
        some Classification.departure
      else some Classification.unclassified := by
  simp only [classifyStep]
  rw [if_neg hcall, if_neg hflt, if_neg (by simp [htyp]), if_neg hvgt, if_neg hsat]

set_option maxHeartbeats 1000000 in
theorem obsFallbackArr_arrival :
    classifyStep db0 emptyRouteMap obsFallbackArr = some Classification.arrival := by
  rw [classifyStep_unfold db0 emptyRouteMap obsFallbackArr (by decide) (by decide) (by decide)
    (fun hc => absurd hc.2.2 (by decide)) (fun hc => absurd hc.2.1 (by decide))]
  have hM : mainIsArrival (get_live_route emptyRouteMap (pyUpper (pyStrip obsFallbackArr.callsign)))
      obsFallbackArr.distLAS obsFallbackArr.bearingLAS obsFallbackArr.heading
      obsFallbackArr.v_rate obsFallbackArr.alt_ft = true := by
    with_unfolding_all decide
  rw [if_pos hM]

/-- The arrival flag, as a proposition, when the destination is not a
schedule-confirmed LAS/KLAS. -/
theorem mainIsArrival_eq_true_iff (route : RouteRecord) (d b h v a : ℚ)
    (h1 : route.dest ≠ "LAS") (h2 : route.dest ≠ "KLAS") :
    mainIsArrival route d b h v a = true ↔
      (v < 0 ∧ a < 15000 ∧ (d < 60 ∨ headingDiff h b < 120)) ∨
        (v < -(1/2) ∧ a < 12000 ∧ route.dest = "---") := by
  simp only [mainIsArrival, if_neg (show ¬(route.dest = "LAS" ∨ route.dest = "KLAS") by tauto),
    Bool.or_eq_true, is_approach_to_las, decide_eq_true_eq]

/-- The departure flag, as a proposition, when the origin is not a
schedule-confirmed LAS/KLAS. -/
theorem mainIsDeparture_eq_true_iff (route : RouteRecord) (d v a : ℚ)
    (h1 : route.origin ≠ "LAS") (h2 : route.origin ≠ "KLAS") :
    mainIsDeparture route d v a = true ↔
      (d < 30 ∧ v > 0 ∧ a < 10000) ∨
        (v > 1/2 ∧ a < 10000 ∧ route.origin = "---") := by
  simp only [mainIsDeparture, if_neg (show ¬(route.origin = "LAS" ∨ route.origin = "KLAS") by tauto),
    Bool.or_eq_true, is_departure_from_las, decide_eq_true_eq]

set_option maxHeartbeats 1000000 in
/-- Claim C3 counterexample: `obsFallbackArr` passes every exclusion
filter and has no cached route; it fails the geometric arrival heuristic
(70 km from LAS, heading 150 degrees away from the bearing to LAS, hence
an angular difference of 150), yet the loop classifies it Arrival through
the extra fallback disjunct
`v_rate < -0.5 and alt_ft < 12000 and dest == "---"`. -/
theorem arrival_fallback_cex :
    classifyStep db0 emptyRouteMap obsFallbackArr = some Classification.arrival ∧
      ¬(obsFallbackArr.v_rate < 0 ∧ obsFallbackArr.alt_ft < 15000 ∧
        (obsFallbackArr.distLAS < 60 ∨
          headingDiff obsFallbackArr.heading obsFallbackArr.bearingLAS < 120)) := by
  refine ⟨obsFallbackArr_arrival, fun hc => ?_⟩
  rcases hc.2.2 with h | h
  · exact absurd h (by decide)
  · exact absurd h (by with_unfolding_all decide)

/-- Claim C3 (amended): a state vector that passes the exclusion filters
and whose lookup returns the not-found fallback is classified Arrival
exactly when the geometric heuristic holds (descending, below 15000 ft,
and within 60 km of LAS or heading within 120 degrees of the bearing to
LAS), or the fallback disjunct holds (vertical rate below -0.5 and
altitude below 12000 ft). -/
theorem arrival_fallback_characterization (db : String → Option String) (cache : RouteMap)
    (o : StateObs)
    (hcall : pyUpper (pyStrip o.callsign) ≠ "")
    (hflt : ¬(o.spd_kt < 130 ∨ o.alt_ft > 15000))
    (htyp : is_ignored_type (get_aircraft_type db o.icao (pyUpper (pyStrip o.callsign))) = false)
    (hmiss : (get_live_route cache (pyUpper (pyStrip o.callsign))).origin = "---" ∧
      (get_live_route cache (pyUpper (pyStrip o.callsign))).dest = "---")
    (hvgt : ¬(o.lat > 36.15 ∧ o.alt_ft < 6000))
    (hsat : ¬(o.v_rate < 0 ∧ o.alt_ft < 5000 ∧ (o.distKHND < 5 ∨ o.distKVGT < 5))) :
    classifyStep db cache o = some Classification.arrival ↔
      (o.v_rate < 0 ∧ o.alt_ft < 15000 ∧
        (o.distLAS < 60 ∨ headingDiff o.heading o.bearingLAS < 120)) ∨
      (o.v_rate < -(1/2) ∧ o.alt_ft < 12000) := by
  obtain ⟨ho, hd⟩ := hmiss
  have hAiff := mainIsArrival_eq_true_iff (get_live_route cache (pyUpper (pyStrip o.callsign)))
    o.distLAS o.bearingLAS o.heading o.v_rate o.alt_ft
    (by simp [hd]) (by simp [hd])
  rw [classifyStep_unfold db cache o hcall hflt htyp
    (fun hc => hvgt hc.2) (fun hc => hsat ⟨hc.1, hc.2.1, hc.2.2.1⟩)]
  by_cases hA : mainIsArrival (get_live_route cache (pyUpper (pyStrip o.callsign)))
      o.distLAS o.bearingLAS o.heading o.v_rate o.alt_ft = true
  · rw [if_pos hA]
    have h2 := hAiff.mp hA
    constructor
    · intro _
      rcases h2 with h | h
      · exact Or.inl h
      · exact Or.inr ⟨h.1, h.2.1⟩
    · intro _
      rfl
  · rw [if_neg hA]
    constructor
    · intro hcontra
      exfalso
      by_cases hD : mainIsDeparture (get_live_route cache (pyUpper (pyStrip o.callsign)))
          o.distLAS o.v_rate o.alt_ft = true
      · rw [if_pos hD] at hcontra
        simp at hcontra
      · rw [if_neg hD] at hcontra
        simp at hcontra
    · intro hrhs
      refine absurd (hAiff.mpr ?_) hA
      rcases hrhs with h | h
      · exact Or.inl h
      · exact Or.inr ⟨h.1, h.2, hd⟩

/-- Witness for `arrival_fallback_characterization`: the state of
`obsGeomArr` (50 km out, descending at -500, 8000 ft, heading 10 degrees
off the bearing to LAS, no schedule record) classifies Arrival. -/
theorem arrival_fallback_characterization_witness :
    classifyStep db0 emptyRouteMap obsGeomArr = some Classification.arrival :=
  (arrival_fallback_characterization db0 emptyRouteMap obsGeomArr
      (by decide) (by decide) (by decide) (by decide)
      (fun hc => absurd hc.2 (by decide))
      (fun hc => absurd hc.2.1 (by decide))).mpr
    (Or.inl ⟨by with_unfolding_all decide, by decide, Or.inl (by decide)⟩)

set_option maxHeartbeats 1000000 in
/-- Claim C5 counterexample: `obsFallbackDep` passes every exclusion
filter, is not classified Arrival, and its looked-up record (the
fallback) has origin "---", not LAS; it is 50 km from LAS, so the
claimed test does not hold of it, yet the loop classifies it Departure
through the extra fallback disjunct
`v_rate > 0.5 and alt_ft < 10000 and origin == "---"`. -/
theorem departure_fallback_cex :
    classifyStep db0 emptyRouteMap obsFallbackDep = some Classification.departure ∧
      ¬(obsFallbackDep.v_rate > 0 ∧ obsFallbackDep.alt_ft < 10000 ∧
        obsFallbackDep.distLAS < 30) := by
  refine ⟨?_, fun hc => absurd hc.2.2 (by decide)⟩
  rw [classifyStep_unfold db0 emptyRouteMap obsFallbackDep (by decide) (by decide) (by decide)
    (fun hc => absurd hc.2.2 (by decide)) (fun hc => absurd hc.2.1 (by decide))]
  have hMf : mainIsArrival
      (get_live_route emptyRouteMap (pyUpper (pyStrip obsFallbackDep.callsign)))
      obsFallbackDep.distLAS obsFallbackDep.bearingLAS obsFallbackDep.heading
      obsFallbackDep.v_rate obsFallbackDep.alt_ft = false := by
    with_unfolding_all decide
  have hD : mainIsDeparture
      (get_live_route emptyRouteMap (pyUpper (pyStrip obsFallbackDep.callsign)))
      obsFallbackDep.distLAS obsFallbackDep.v_rate obsFallbackDep.alt_ft = true := by
    with_unfolding_all decide
  rw [if_neg (by simp [hMf]), if_pos hD]

theorem pollFold_members (db : String → Option String) (cache : RouteMap) :
    ∀ (obs arr dep : List StateObs),
      (∀ x ∈ arr, classifyStep db cache x = some Classification.arrival) →
      (∀ x ∈ dep, classifyStep db cache x = some Classification.departure) →
      (∀ x ∈ (obs.foldl (pollStep db cache) (arr, dep)).1,
          classifyStep db cache x = some Classification.arrival) ∧
      (∀ x ∈ (obs.foldl (pollStep db cache) (arr, dep)).2,
          classifyStep db cache x = some Classification.departure) := by
  intro obs
  induction obs with
  | nil =>
    intro arr dep ha hd
    exact ⟨ha, hd⟩
  | cons o rest ih =>
    intro arr dep ha hd
    rw [List.foldl_cons]
    rcases hc : classifyStep db cache o with _ | c
    · have hstep : pollStep db cache (arr, dep) o = (arr, dep) := by
        simp [pollStep, hc]
      rw [hstep]
      exact ih arr dep ha hd
    · cases c with
      | arrival =>
        have hstep : pollStep db cache (arr, dep) o = (arr ++ [o], dep) := by
          simp [pollStep, hc]
        rw [hstep]
        refine ih (arr ++ [o]) dep ?_ hd
        intro x hx
        rcases List.mem_append.mp hx with h | h
        · exact ha x h
        · rw [List.mem_singleton] at h
          subst h
          exact hc
      | departure =>
        have hstep : pollStep db cache (arr, dep) o = (arr, dep ++ [o]) := by
          simp [pollStep, hc]
        rw [hstep]
        refine ih arr (dep ++ [o]) ha ?_
        intro x hx
        rcases List.mem_append.mp hx with h | h
        · exact hd x h
        · rw [List.mem_singleton] at h
          subst h
          exact hc
      | unclassified =>
        have hstep : pollStep db cache (arr, dep) o = (arr, dep) := by
          simp [pollStep, hc]
        rw [hstep]
        exact ih arr dep ha hd

set_option maxHeartbeats 1000000 in
theorem obsNearDep_not_arrival :
    classifyStep db0 emptyRouteMap obsNearDep ≠ some Classification.arrival := by
  rw [classifyStep_unfold db0 emptyRouteMap obsNearDep (by decide) (by decide) (by decide)
    (fun hc => absurd hc.2.1 (by with_unfolding_all decide))
    (fun hc => absurd hc.1 (by decide))]
  have hMf : mainIsArrival (get_live_route emptyRouteMap (pyUpper (pyStrip obsNearDep.callsign)))
      obsNearDep.distLAS obsNearDep.bearingLAS obsNearDep.heading obsNearDep.v_rate
      obsNearDep.alt_ft = false := by
    with_unfolding_all decide
  rw [if_neg (by simp [hMf])]
  by_cases hD : mainIsDeparture (get_live_route emptyRouteMap (pyUpper (pyStrip obsNearDep.callsign)))
      obsNearDep.distLAS obsNearDep.v_rate obsNearDep.alt_ft = true
  · rw [if_pos hD]
    simp
  · rw [if_neg hD]
    simp

/-- Claim C5 (amended): a state vector that passes the exclusion filters,
is not classified Arrival, and whose looked-up record has origin other
than LAS/KLAS is classified Departure exactly when it is climbing, below
10000 ft and within 30 km of LAS, or when the fallback disjunct holds
(vertical rate above 0.5, below 10000 ft, origin equal to the not-found
sentinel "---"); when neither holds the result is Unclassified, and an
unclassified aircraft is appended to neither output list. -/
theorem departure_characterization (db : String → Option String) (cache : RouteMap)
    (o : StateObs)
    (hcall : pyUpper (pyStrip o.callsign) ≠ "")
    (hflt : ¬(o.spd_kt < 130 ∨ o.alt_ft > 15000))
    (htyp : is_ignored_type (get_aircraft_type db o.icao (pyUpper (pyStrip o.callsign))) = false)
    (hvgt : ¬(o.lat > 36.15 ∧ o.alt_ft < 6000))
    (hsat : ¬(o.v_rate < 0 ∧ o.alt_ft < 5000 ∧ (o.distKHND < 5 ∨ o.distKVGT < 5)))
    (hnotArr : classifyStep db cache o ≠ some Classification.arrival)
    (horig : (get_live_route cache (pyUpper (pyStrip o.callsign))).origin ≠ "LAS" ∧
      (get_live_route cache (pyUpper (pyStrip o.callsign))).origin ≠ "KLAS") :
    (classifyStep db cache o = some Classification.departure ↔
      (o.v_rate > 0 ∧ o.alt_ft < 10000 ∧ o.distLAS < 30) ∨
      (o.v_rate > 1/2 ∧ o.alt_ft < 10000 ∧
        (get_live_route cache (pyUpper (pyStrip o.callsign))).origin = "---")) ∧
    (classifyStep db cache o ≠ some Classification.departure →
      classifyStep db cache o = some Classification.unclassified) ∧
    (∀ obs, classifyStep db cache o = some Classification.unclassified →
      o ∉ (pollCycle db cache obs).1 ∧ o ∉ (pollCycle db cache obs).2) := by
  have hA : mainIsArrival (get_live_route cache (pyUpper (pyStrip o.callsign)))
      o.distLAS o.bearingLAS o.heading o.v_rate o.alt_ft = false := by
    cases hcase : mainIsArrival (get_live_route cache (pyUpper (pyStrip o.callsign)))
        o.distLAS o.bearingLAS o.heading o.v_rate o.alt_ft with
    | false => rfl
    | true =>
      exfalso
      apply hnotArr
      rw [classifyStep_unfold db cache o hcall hflt htyp
        (fun hc => hvgt hc.2) (fun hc => hsat ⟨hc.1, hc.2.1, hc.2.2.1⟩)]
      rw [if_pos hcase]
  have hstep : classifyStep db cache o =
      (if mainIsDeparture (get_live_route cache (pyUpper (pyStrip o.callsign)))
          o.distLAS o.v_rate o.alt_ft then some Classification.departure
        else some Classification.unclassified) := by
    rw [classifyStep_unfold db cache o hcall hflt htyp
      (fun hc => hvgt hc.2) (fun hc => hsat ⟨hc.1, hc.2.1, hc.2.2.1⟩)]
    rw [if_neg (by simp [hA])]
  have hDiff := mainIsDeparture_eq_true_iff
    (get_live_route cache (pyUpper (pyStrip o.callsign)))
    o.distLAS o.v_rate o.alt_ft horig.1 horig.2
  refine ⟨?_, ?_, ?_⟩
  · rw [hstep]
    by_cases hD : mainIsDeparture (get_live_route cache (pyUpper (pyStrip o.callsign)))
        o.distLAS o.v_rate o.alt_ft = true
    · rw [if_pos hD]
      have h2 := hDiff.mp hD
      constructor
      · intro _
        rcases h2 with h | h
        · exact Or.inl ⟨h.2.1, h.2.2, h.1⟩
        · exact Or.inr h
      · intro _
        rfl
    · rw [if_neg hD]
      constructor
      · intro hcontra
        exact absurd hcontra (by simp)
      · intro hrhs
        refine absurd (hDiff.mpr ?_) hD
        rcases hrhs with h | h
        · exact Or.inl ⟨h.2.2, h.1, h.2.1⟩
        · exact Or.inr h
  · rw [hstep]
    by_cases hD : mainIsDeparture (get_live_route cache (pyUpper (pyStrip o.callsign)))
        o.distLAS o.v_rate o.alt_ft = true
    · rw [if_pos hD]
      intro hcontra
      exact absurd rfl hcontra
    · rw [if_neg hD]
      intro _
      rfl
  · intro obs huncl
    have hm := pollFold_members db cache obs [] []
      (fun x hx => absurd hx (List.not_mem_nil x))
      (fun x hx => absurd hx (List.not_mem_nil x))
    constructor
    · intro hin
      have h1 := hm.1 o hin
      rw [huncl] at h1
      simp at h1
    · intro hin
      have h1 := hm.2 o hin
      rw [huncl] at h1
      simp at h1

/-- Witness for `departure_characterization`: the climbing state vector
`obsNearDep` (10 km from LAS, 5000 ft) classifies Departure. -/
theorem departure_characterization_witness :
    classifyStep db0 emptyRouteMap obsNearDep = some Classification.departure :=
  (departure_characterization db0 emptyRouteMap obsNearDep
      (by decide) (by decide) (by decide)
      (fun hc => absurd hc.1 (by with_unfolding_all decide))
      (fun hc => absurd hc.1 (by decide))
      obsNearDep_not_arrival
      ⟨by decide, by decide⟩).1.mpr
    (Or.inl ⟨by decide, by decide, by decide⟩)

/-- Claim C10: within one poll cycle the arrivals and departures lists
are disjoint: an aircraft appended to the arrivals list is never also in
the departures list, the departure append being behind an `elif` on the
arrival flag. -/
theorem cycle_lists_disjoint (db : String → Option String) (cache : RouteMap)
    (obs : List StateObs) (o : StateObs)
    (h : o ∈ (pollCycle db cache obs).1) :
    o ∉ (pollCycle db cache obs).2 := by
  intro h2
  have hm := pollFold_members db cache obs [] []
    (fun x hx => absurd hx (List.not_mem_nil x))
    (fun x hx => absurd hx (List.not_mem_nil x))
  have e1 := hm.1 o h
  have e2 := hm.2 o h2
  rw [e1] at e2
  simp at e2

theorem pollCycle_single :
    pollCycle db0 emptyRouteMap [obsFallbackArr] = ([obsFallbackArr], []) := by
  simp [pollCycle, pollStep, obsFallbackArr_arrival]

/-- Witness for `cycle_lists_disjoint`: the classified arrival
`obsFallbackArr` is absent from the departures list of its cycle. -/
theorem cycle_lists_disjoint_witness :
    obsFallbackArr ∉ (pollCycle db0 emptyRouteMap [obsFallbackArr]).2 :=
  cycle_lists_disjoint db0 emptyRouteMap [obsFallbackArr] obsFallbackArr
    (by simp [pollCycle_single])

/-! ## Runway predictor lemmas -/

theorem ltO_of_le {d e : ℚ} {m : Option ℚ} (h1 : d ≤ e) (h2 : ltO e m = true) :
    ltO d m = true := by
  cases m with
  | none => rfl
  | some m0 =>
    simp only [ltO, decide_eq_true_eq] at h2 ⊢
    linarith

theorem ltO_of_lt {d e : ℚ} {m : Option ℚ} (h1 : d < e) (h2 : ltO e m = true) :
    ltO d m = true :=
  ltO_of_le h1.le h2

theorem selFrom_stable (hdg : ℚ) :
    ∀ (l : List (String × ℚ)) (m : Option ℚ) (p : String),
      (∀ q ∈ l, ltO (headingDiff hdg q.2) m = false) →
      selFrom hdg m p l = p
  | [], _, _, _ => rfl
  | (n, b) :: rest, m, p, h => by
    simp only [selFrom]
    rw [if_neg (fun hcond => by
      have := ((Bool.and_eq_true _ _).mp hcond).1
      rw [h (n, b) (List.mem_cons_self _ _)] at this
      exact Bool.false_ne_true this)]
    exact selFrom_stable hdg rest m p (fun q hq => h q (List.mem_cons_of_mem _ hq))

theorem selFrom_congr (hdg : ℚ) :
    ∀ (l : List (String × ℚ)) (m m2 : Option ℚ) (p p2 : String),
      (∃ q ∈ l, ltO (headingDiff hdg q.2) m = true ∧ ltO (headingDiff hdg q.2) m2 = true) →
      selFrom hdg m p l = selFrom hdg m2 p2 l
  | [], _, _, _, _, h => absurd h (by simp)
  | (n, b) :: rest, m, m2, p, p2, h => by
    simp only [selFrom]
    by_cases hall : rest.all (fun q => decide (headingDiff hdg b ≤ headingDiff hdg q.2)) = true
    · have hb : ltO (headingDiff hdg b) m = true ∧ ltO (headingDiff hdg b) m2 = true := by
        obtain ⟨q, hq, h1, h2⟩ := h
        rcases List.mem_cons.mp hq with rfl | hq2
        · exact ⟨h1, h2⟩
        · have hle : headingDiff hdg b ≤ headingDiff hdg q.2 := by
            simpa using List.all_eq_true.mp hall q hq2
          exact ⟨ltO_of_le hle h1, ltO_of_le hle h2⟩
      rw [if_pos ((Bool.and_eq_true _ _).mpr ⟨hb.1, hall⟩),
        if_pos ((Bool.and_eq_true _ _).mpr ⟨hb.2, hall⟩)]
    · have hex : ∃ r ∈ rest, headingDiff hdg r.2 < headingDiff hdg b := by
        by_contra hc
        push_neg at hc
        apply hall
        rw [List.all_eq_true]
        intro q hq
        simpa using not_lt.mp (fun hlt => absurd hlt (by simpa using hc q hq))
      rw [if_neg (fun hcond => hall ((Bool.and_eq_true _ _).mp hcond).2),
        if_neg (fun hcond => hall ((Bool.and_eq_true _ _).mp hcond).2)]
      apply selFrom_congr hdg rest m m2 p p2
      obtain ⟨q, hq, h1, h2⟩ := h
      rcases List.mem_cons.mp hq with rfl | hq2
      · obtain ⟨r, hr, hlt⟩ := hex
        exact ⟨r, hr, ltO_of_lt hlt h1, ltO_of_lt hlt h2⟩
      · exact ⟨q, hq2, h1, h2⟩

theorem runwayLoop_eq_selFrom (hdg : ℚ) :
    ∀ (l : List (String × ℚ)) (m : Option ℚ) (p : String),
      runwayLoop hdg l m p = selFrom hdg m p l
  | [], _, _ => rfl
  | (n, b) :: rest, m, p => by
    simp only [runwayLoop, selFrom]
    by_cases h1 : ltO (headingDiff hdg b) m = true
    · rw [if_pos h1]
      by_cases hall : rest.all (fun q => decide (headingDiff hdg b ≤ headingDiff hdg q.2)) = true
      · rw [if_pos ((Bool.and_eq_true _ _).mpr ⟨h1, hall⟩)]
        rw [runwayLoop_eq_selFrom hdg rest (some (headingDiff hdg b)) n]
        apply selFrom_stable
        intro q hq
        have hle : headingDiff hdg b ≤ headingDiff hdg q.2 := by
          simpa using List.all_eq_true.mp hall q hq
        simp [ltO, not_lt.mpr hle]
      · rw [if_neg (fun hcond => hall ((Bool.and_eq_true _ _).mp hcond).2)]
        rw [runwayLoop_eq_selFrom hdg rest (some (headingDiff hdg b)) n]
        have hex : ∃ r ∈ rest, headingDiff hdg r.2 < headingDiff hdg b := by
          by_contra hc
          push_neg at hc
          apply hall
          rw [List.all_eq_true]
          intro q hq
          simpa using not_lt.mp (fun hlt => absurd hlt (by simpa using hc q hq))
        obtain ⟨r, hr, hlt⟩ := hex
        exact selFrom_congr hdg rest (some (headingDiff hdg b)) m n p
          ⟨r, hr, by simp [ltO, hlt], ltO_of_lt hlt h1⟩
    · rw [if_neg h1, if_neg (fun hcond => h1 ((Bool.and_eq_true _ _).mp hcond).1)]
      exact runwayLoop_eq_selFrom hdg rest m p

theorem selFrom_none_eq_firstMin (hdg : ℚ) :
    ∀ l : List (String × ℚ), selFrom hdg none "" l = firstMinRunway hdg l
  | [] => rfl
  | (n, b) :: rest => by
    simp only [selFrom, firstMinRunway, ltO, Bool.true_and]
    by_cases hall : rest.all (fun q => decide (headingDiff hdg b ≤ headingDiff hdg q.2)) = true
    · rw [if_pos hall, if_pos hall]
    · rw [if_neg hall, if_neg hall]
      exact selFrom_none_eq_firstMin hdg rest

theorem firstMinRunway_qmod (h : ℚ) :
    ∀ l : List (String × ℚ), firstMinRunway (qmod h 360) l = firstMinRunway h l
  | [] => rfl
  | (n, b) :: rest => by
    simp only [firstMinRunway, headingDiff_qmod]
    by_cases hall : rest.all (fun q => decide (headingDiff h b ≤ headingDiff h q.2)) = true
    · rw [if_pos hall, if_pos hall]
    · rw [if_neg hall, if_neg hall]
      exact firstMinRunway_qmod h rest

/-- Claim C6: `get_runway` returns "" exactly when the distance to LAS
exceeds 40 km, or the altitude is at or above 7000 ft, or the angular
difference between the heading and the bearing to LAS is at least 90
degrees; otherwise it returns the entry of the fixed `RUNWAY_THRESHOLDS`
table whose bearing from the aircraft has minimal angular difference to
the heading, the first minimal entry in table order winning ties
(`firstMinRunway`). -/
theorem get_runway_characterization (dist bearingLAS : ℚ) (bear : ℚ → ℚ → ℚ)
    (hdg alt_ft : ℚ) :
    get_runway dist bearingLAS bear hdg alt_ft =
      if dist > 40 ∨ alt_ft ≥ 7000 ∨ headingDiff hdg bearingLAS ≥ 90 then ""
      else firstMinRunway hdg (RUNWAY_THRESHOLDS.map (fun p => (p.1, bear p.2.1 p.2.2))) := by
  unfold get_runway
  by_cases h1 : dist > 40 ∨ alt_ft ≥ 7000
  · rw [if_pos h1, if_pos (h1.elim Or.inl (fun h => Or.inr (Or.inl h)))]
  · rw [if_neg h1, headingDiff_qmod]
    by_cases h2 : headingDiff hdg bearingLAS ≥ 90
    · rw [if_pos h2, if_pos (Or.inr (Or.inr h2))]
    · rw [if_neg h2,
        if_neg (fun hc => hc.elim (fun ha => h1 (Or.inl ha))
          (fun hbc => hbc.elim (fun hb => h1 (Or.inr hb)) h2))]
      rw [runwayLoop_eq_selFrom, selFrom_none_eq_firstMin, firstMinRunway_qmod]
